import Mathlib

/-!
Verification of the budget-orchestration and scheduling core of the bizhacks
repository.  The definitions below are shallow embeddings of the Python source:

* `backend/core/config.py` (the `Settings` constants),
* `backend/agents/orchestrator_agent.py` (`calculate_performance_score` and
  `rebalance_budgets`),
* `backend/core/scheduler.py` (`cancel_job`),
* `backend/services/campaign_service.py` (`CampaignService.execute_campaign`),
* `backend/api/campaigns.py` (`update_campaign`),

together with two definitions modelled from the specification where the code
they describe (`CampaignService._create_campaign_schedules`, the schedule
generator) is referenced by the sources but not present among them.

Monetary amounts, rates and scores are modelled as rationals; the optimizer
call into scipy is modelled by an explicit `OptimizeResult` value carrying the
`success` flag and the solution vector `x`, exactly the two fields the Python
code reads.
-/

/- ### Settings (backend/core/config.py) -/

/-- `Settings.MIN_CAMPAIGN_BUDGET = 100.0` (config.py line 52). -/
def MIN_CAMPAIGN_BUDGET : ℚ := 100

/-- `Settings.MAX_BUDGET_ALLOCATION_PERCENT = 50.0` (config.py line 53). -/
def MAX_BUDGET_ALLOCATION_PERCENT : ℚ := 50

/-- `Settings.REBALANCING_THRESHOLD = 0.15` (config.py line 54). -/
def REBALANCING_THRESHOLD : ℚ := 15 / 100

/-- `Settings.CAMPAIGN_RETRY_ATTEMPTS = 3` (config.py line 39).  Declared in
the configuration but never read by any code under `backend/` except a
diagnostic print in `scripts/jobs_inspector.py`. -/
def CAMPAIGN_RETRY_ATTEMPTS : ℕ := 3

/-- `Settings.CAMPAIGN_RETRY_DELAY = 60` (config.py line 40).  Likewise unused
by the execution path. -/
def CAMPAIGN_RETRY_DELAY : ℕ := 60

/- ### Metrics and the performance scorer (orchestrator_agent.py) -/

/-- One row of the `metrics` table (data/models.py): all payload fields are
`Optional` in the model, which `calculate_performance_score` reads through
`m.field or 0`. -/
structure Metric where
  impressions : Option ℚ
  clicks : Option ℚ
  engagement_rate : Option ℚ
  conversion_rate : Option ℚ
  cpa : Option ℚ
  deriving DecidableEq, Repr

/-- Python `x or 0` on an optional numeric field (treating a stored 0 and a
missing value alike, exactly as the source does). -/
def orZero (x : Option ℚ) : ℚ := x.getD 0

/-- `calculate_performance_score` (orchestrator_agent.py lines 39-65): a
cold-start list of metrics scores the neutral 0.5; otherwise a weighted sum of
click-through rate, average engagement, average conversion and a normalized
cost-per-acquisition. -/
def calculate_performance_score (metrics : List Metric) : ℚ :=
  if metrics = [] then 1 / 2
  else
    let n : ℚ := metrics.length
    let total_impressions := (metrics.map (fun m => orZero m.impressions)).sum
    let total_clicks := (metrics.map (fun m => orZero m.clicks)).sum
    let avg_engagement := (metrics.map (fun m => orZero m.engagement_rate)).sum / n
    let avg_conversion := (metrics.map (fun m => orZero m.conversion_rate)).sum / n
    let avg_cpa := (metrics.map (fun m => orZero m.cpa)).sum / n
    let normalized_cpa := if avg_cpa > 0 then 1 / (1 + avg_cpa / 100) else 1 / 2
    let ctr := if total_impressions > 0 then total_clicks / total_impressions else 0
    2 / 10 * ctr + 3 / 10 * avg_engagement + 3 / 10 * avg_conversion
      + 2 / 10 * normalized_cpa

/- ### The rebalance run (orchestrator_agent.py, rebalance_budgets) -/

/-- The two fields of the scipy `OptimizeResult` that `rebalance_budgets`
reads: `result.success` and `result.x`.  The SLSQP call itself is external to
the repository; a run of `rebalance_budgets` is parametrised by the value the
solver returned. -/
structure OptimizeResult where
  success : Bool
  x : List ℚ
  deriving DecidableEq, Repr

/-- The change-magnitude gate of `rebalance_budgets` (orchestrator_agent.py
lines 156-158): `change_ratio = abs(new_budget - old_budget) / old_budget`
compared against the threshold.  `new_budget` is an entry of the numpy array
`result.x`, so the division is numpy float division: when `old_budget` is 0 it
yields `inf` for a nonzero numerator (and `nan` for a zero numerator) with a
runtime warning instead of raising `ZeroDivisionError`.  For the finite
positive threshold, `inf > threshold` is true and `nan > threshold` is false,
which the `old = 0` branch below encodes exactly; the `old ≠ 0` branch is the
exact rational value of the comparison. -/
def gatePasses (threshold old new : ℚ) : Bool :=
  if old = 0 then new ≠ 0
  else threshold < |new - old| / old

/-- The per-campaign commit step of `rebalance_budgets` (lines 151-161): the
budget field is assigned the proposed value when the gate passes and is left
untouched otherwise. -/
def commitBudget (threshold old new : ℚ) : ℚ :=
  if gatePasses threshold old new then new else old

/-- `total_budget = np.sum(current_budgets)` (orchestrator_agent.py line
122): the budget pool being redistributed is the sum of the current budgets of
the active campaigns. -/
def totalBudget (budgets : List ℚ) : ℚ := budgets.sum

/-- The upper box bound `total_budget * settings.MAX_BUDGET_ALLOCATION_PERCENT
/ 100` passed to the solver (orchestrator_agent.py line 130). -/
def upperBound (total : ℚ) : ℚ := total * MAX_BUDGET_ALLOCATION_PERCENT / 100

/-- The constraints handed to SLSQP (orchestrator_agent.py lines 124-131):
the solution has one entry per campaign, sums to the total budget, and each
entry lies between `MIN_CAMPAIGN_BUDGET` and the `upperBound`.  A successful
solve reports a vector satisfying these (this is the solver contract; it is
used as a hypothesis, never assumed by the embedded code). -/
def satisfiesConstraints (budgets xs : List ℚ) : Prop :=
  xs.length = budgets.length ∧
  xs.sum = totalBudget budgets ∧
  ∀ x ∈ xs, MIN_CAMPAIGN_BUDGET ≤ x ∧ x ≤ upperBound (totalBudget budgets)

instance (budgets xs : List ℚ) : Decidable (satisfiesConstraints budgets xs) := by
  unfold satisfiesConstraints; infer_instance

/-- `rebalance_budgets` (orchestrator_agent.py lines 87-181), reduced to its
state effect.  Inputs: the current budgets of the active campaigns (in query
order) and the solver outcome.  Output: the campaign budgets as persisted
after the run, paired with the returned `rebalance_results` (old and new
budget of each campaign whose gate passed).

Line-by-line correspondence: an empty campaign list returns early (line 96);
a failed solve logs and returns `[]` with no budget written (lines 143-145);
otherwise each campaign is assigned `new_budgets[i]` exactly when the
change-magnitude gate passes (lines 151-161) and the session is committed
(line 179).  The performance scores computed on lines 100-120 only feed the
external solver call and therefore live inside the `result` parameter. -/
def rebalance_budgets (budgets : List ℚ) (result : OptimizeResult) :
    List ℚ × List (ℚ × ℚ) :=
  if budgets = [] then ([], [])
  else if result.success = false then (budgets, [])
  else
    (List.zipWith (fun old new => commitBudget REBALANCING_THRESHOLD old new)
        budgets result.x,
      (List.zip budgets result.x).filter
        (fun p => gatePasses REBALANCING_THRESHOLD p.1 p.2))

example :
    rebalance_budgets [0, 400] (OptimizeResult.mk true [200, 200])
      = ([200, 200], [(0, 200), (400, 200)]) := by
  norm_num [rebalance_budgets, commitBudget, gatePasses, REBALANCING_THRESHOLD,
    List.cons_ne_nil]

example :
    rebalance_budgets [430, 570] (OptimizeResult.mk true [500, 500])
      = ([500, 570], [(430, 500)]) := by
  norm_num [rebalance_budgets, commitBudget, gatePasses, REBALANCING_THRESHOLD,
    List.cons_ne_nil]

example : calculate_performance_score [] = 1 / 2 := by
  norm_num [calculate_performance_score]

/- ### Job store (backend/core/scheduler.py, cancel_job) -/

/-- `cancel_job` (scheduler.py lines 193-201): `scheduler.remove_job(job_id)`
removes the APScheduler job with that id; the surrounding `try`/`except`
catches the `JobLookupError` raised when no such job exists (and any other
exception) and returns `False`, so the function always returns a boolean and
never propagates an error.  The in-memory job store is modelled as the list of
currently registered job ids (APScheduler ids are unique, so removal filters
the id out); job ids are opaque and modelled as naturals. -/
def cancel_job (jobs : List ℕ) (job_id : ℕ) : Bool × List ℕ :=
  if job_id ∈ jobs then (true, jobs.filter (fun j => j ≠ job_id))
  else (false, jobs)

example : cancel_job [1, 2] 3 = (false, [1, 2]) := by decide

example : cancel_job (cancel_job [1, 2] 2).2 2 = (false, [1]) := by decide

/- ### Enumerations of the data model (data/models.py) -/

/-- Campaign lifecycle status (`data/models.py` line 72: draft, active,
paused, completed). -/
inductive CStatus
  | draft
  | active
  | paused
  | completed
  deriving DecidableEq, Repr

/-- Schedule (occurrence) lifecycle status as used across
`campaign_service.py`, `api/campaigns.py` and `api/schedules.py`. -/
inductive SchedStatus
  | pending
  | executing
  | completed
  | failed
  | cancelled
  | rescheduled
  deriving DecidableEq, Repr

/-- Campaign repeat frequency (`data/models.py` line 69: daily, weekly,
monthly). -/
inductive Frequency
  | daily
  | weekly
  | monthly
  deriving DecidableEq, Repr

/-- One row of the `schedules` table, restricted to the fields the claims
touch: the lifecycle status, whether `executed_at` has been set, and the
campaign parameters (frequency) from which the occurrence was generated (the
cadence a pending occurrence references). -/
structure Occurrence where
  status : SchedStatus
  executed : Bool
  cadence : Option Frequency
  deriving DecidableEq, Repr

/- ### Campaign executor (campaign_service.py, execute_campaign) -/

/-- The value `CampaignService.execute_campaign` produces: the skip dict for
an inactive campaign (line 144), the success dict (lines 197-201), or the
re-raised exception (line 218). -/
inductive ExecOutcome
  | skipped
  | succeeded
  | raised
  deriving DecidableEq, Repr

/-- `CampaignService.execute_campaign` (campaign_service.py lines 133-218),
reduced to its effect on the campaign schedule rows.  `publishOk` is the
outcome of the external crew/publish and metric-generation calls (lines
156-180): `true` when both succeed, `false` when any exception is raised.

* If the campaign is not active the execution is skipped and no row changes
  (lines 142-144).
* On success every pending schedule row is marked `completed` and its
  `executed_at` is set (lines 183-194).
* On an exception every pending schedule row is marked `failed` (without an
  `executed_at`), the session is committed and the exception is re-raised
  (lines 203-218).  There is no retry loop: a single failed attempt marks the
  rows failed. -/
def execute_campaign (status : CStatus) (schedules : List Occurrence)
    (publishOk : Bool) : List Occurrence × ExecOutcome :=
  if status ≠ CStatus.active then (schedules, ExecOutcome.skipped)
  else if publishOk then
    (schedules.map (fun s =>
        if s.status = SchedStatus.pending then
          { s with status := SchedStatus.completed, executed := true }
        else s),
      ExecOutcome.succeeded)
  else
    (schedules.map (fun s =>
        if s.status = SchedStatus.pending then
          { s with status := SchedStatus.failed }
        else s),
      ExecOutcome.raised)

/- ### Schedule generation and campaign update -/

/-- Modelled from the spec: `CampaignService._create_campaign_schedules`, the
Schedule Generator, is invoked as
`service._create_campaign_schedules(campaign, months=6)` from
`backend/api/campaigns.py` line 148 but its definition is not among the source
files.  Per spec section 4.1, regeneration first cancels/discards all
non-terminal (pending) occurrences of the campaign and then generates a fresh
batch of pending occurrences from the campaign parameters now current, so that
changing frequency or start time never leaves orphaned future jobs.  `n` is
the number of fresh occurrences the horizon yields. -/
def create_campaign_schedules (schedules : List Occurrence)
    (freq : Option Frequency) (n : ℕ) : List Occurrence :=
  (schedules.map (fun s =>
      if s.status = SchedStatus.pending then
        { s with status := SchedStatus.cancelled }
      else s))
    ++ List.replicate n
        { status := SchedStatus.pending, executed := false, cadence := freq }

/-- The campaign fields relevant to `update_campaign`. -/
structure Camp where
  frequency : Option Frequency
  start_date : Option ℕ
  status : CStatus
  schedules : List Occurrence
  deriving DecidableEq, Repr

/-- The request body of `PUT /campaigns/{id}` restricted to the fields the
claims touch; a `none` field was not supplied (`exclude_unset=True`). -/
structure CampaignUpd where
  frequency : Option Frequency
  start_date : Option ℕ
  status : Option CStatus
  deriving DecidableEq, Repr

/-- `update_campaign` (backend/api/campaigns.py lines 116-151): each supplied
field is compared against the stored value before being assigned
(`frequency_changed` / `start_date_changed`, lines 127-138); after the commit,
if either changed and the campaign is then active, the schedules are recreated
from the new parameters via `_create_campaign_schedules(campaign, months=6)`
(lines 145-149). -/
def update_campaign (c : Camp) (u : CampaignUpd) : Camp :=
  let frequency_changed :=
    match u.frequency with
    | some f => decide (some f ≠ c.frequency)
    | none => false
  let start_date_changed :=
    match u.start_date with
    | some t => decide (some t ≠ c.start_date)
    | none => false
  let c2 : Camp :=
    { frequency := if u.frequency.isSome then u.frequency else c.frequency
      start_date := if u.start_date.isSome then u.start_date else c.start_date
      status := u.status.getD c.status
      schedules := c.schedules }
  if (frequency_changed || start_date_changed) && decide (c2.status = CStatus.active) then
    { c2 with schedules := create_campaign_schedules c2.schedules c2.frequency 6 }
  else c2

/- ### Calendar-correct monthly stepping (Schedule Generator) -/

/-- A calendar date as year, month (1-12) and day of month. -/
structure Date where
  year : ℕ
  month : ℕ
  day : ℕ
  deriving DecidableEq, Repr

/-- Gregorian leap-year rule. -/
def isLeapYear (y : ℕ) : Bool :=
  (y % 4 == 0 && y % 100 != 0) || y % 400 == 0

/-- Number of days in a month of a given year. -/
def daysInMonth (y m : ℕ) : ℕ :=
  if m = 2 then (if isLeapYear y then 29 else 28)
  else if m = 4 ∨ m = 6 ∨ m = 9 ∨ m = 11 then 30
  else 31

/-- A date that actually exists on the calendar. -/
def Date.valid (d : Date) : Prop :=
  1 ≤ d.month ∧ d.month ≤ 12 ∧ 1 ≤ d.day ∧ d.day ≤ daysInMonth d.year d.month

instance (d : Date) : Decidable d.valid := by
  unfold Date.valid; infer_instance

/-- Modelled from the spec: the monthly step of the Schedule Generator
(`CampaignService._create_campaign_schedules`, absent from the source files;
only its caller at `backend/api/campaigns.py` line 148 is present).  Spec
section 4.1: one month later means the same day-of-month in the next month
number, rolling the year when the month exceeds 12; if the target month has
fewer days than the source day-of-month, clamp to the last valid day of the
target month rather than rolling into the following month. -/
def monthlyStep (d : Date) : Date :=
  let y := if d.month = 12 then d.year + 1 else d.year
  let m := if d.month = 12 then 1 else d.month + 1
  { year := y, month := m, day := min d.day (daysInMonth y m) }

example : monthlyStep (Date.mk 2025 1 31) = Date.mk 2025 2 28 := by decide

example : monthlyStep (Date.mk 2024 1 31) = Date.mk 2024 2 29 := by decide

example : monthlyStep (Date.mk 2025 3 31) = Date.mk 2025 4 30 := by decide

example : monthlyStep (Date.mk 2025 12 15) = Date.mk 2026 1 15 := by decide

/- ### Helper lemmas -/

lemma getD_zipWith (f : ℚ → ℚ → ℚ) :
    ∀ (as bs : List ℚ) (i : ℕ), i < as.length → i < bs.length →
      (List.zipWith f as bs).getD i 0 = f (as.getD i 0) (bs.getD i 0) := by
  intro as
  induction as with
  | nil => intro bs i h1 _; simp at h1
  | cons a as ih =>
    intro bs i h1 h2
    cases bs with
    | nil => simp at h2
    | cons b bs =>
      cases i with
      | zero => rfl
      | succ i =>
        simpa using ih bs i (by simpa using h1) (by simpa using h2)

lemma getD_mem_of_lt (l : List ℚ) (i : ℕ) (h : i < l.length) :
    l.getD i 0 ∈ l := by
  rw [List.getD_eq_getElem l 0 h]
  exact List.getElem_mem h

lemma daysInMonth_ge_28 (y m : ℕ) : 28 ≤ daysInMonth y m := by
  unfold daysInMonth
  split
  · split <;> omega
  · split <;> omega

/- ### Claim theorems -/

/-- Claim C8: for a campaign with zero metric samples in the scoring window
(an empty metrics list), `calculate_performance_score` returns exactly 0.5. -/
theorem C8_cold_start_score_is_half : calculate_performance_score [] = 1 / 2 := by
  norm_num [calculate_performance_score]

/-- Claim C3: when the constrained solver fails to converge
(`result.success` is false), the rebalance run is a no-op: every campaign
retains its previous budget and the caller receives the empty result list,
never a substituted allocation. -/
theorem C3_solver_failure_is_noop (budgets : List ℚ) (r : OptimizeResult)
    (hfail : r.success = false) :
    rebalance_budgets budgets r = (budgets, []) := by
  rcases budgets with _ | ⟨b, bs⟩ <;> simp [rebalance_budgets, hfail]

/-- Witness for C3 at a concrete run. -/
theorem C3_solver_failure_is_noop_witness :
    rebalance_budgets [250, 750] (OptimizeResult.mk false [])
      = ([250, 750], []) :=
  C3_solver_failure_is_noop [250, 750] (OptimizeResult.mk false []) rfl

/-- Claim C9: cancelling a job returns a boolean and never raises; it
returns false and leaves the store unchanged when no job with that id exists,
and repeating a cancel is a stable no-op (the second call returns false and
changes nothing). -/
theorem C9_cancel_job_idempotent (jobs : List ℕ) (job_id : ℕ) :
    (job_id ∉ jobs → cancel_job jobs job_id = (false, jobs)) ∧
    cancel_job (cancel_job jobs job_id).2 job_id
      = (false, (cancel_job jobs job_id).2) := by
  constructor
  · intro h
    simp [cancel_job, h]
  · by_cases h : job_id ∈ jobs
    · simp [cancel_job, h, List.mem_filter]
    · simp [cancel_job, h]

/-- Witness for C9 at a concrete store. -/
theorem C9_cancel_job_idempotent_witness :
    cancel_job [5] 7 = (false, [5]) ∧
    cancel_job (cancel_job [5] 7).2 7 = (false, (cancel_job [5] 7).2) :=
  ⟨(C9_cancel_job_idempotent [5] 7).1 (by decide),
    (C9_cancel_job_idempotent [5] 7).2⟩

/-- Claim C6 (code bug evidence): for an active campaign with a pending
occurrence, a single exception during publish or metric generation marks the
occurrence `failed` immediately and re-raises; no retry is attempted even
though the configuration declares `CAMPAIGN_RETRY_ATTEMPTS = 3` and
`CAMPAIGN_RETRY_DELAY = 60`, which no execution code reads. -/
theorem C6_single_exception_marks_failed :
    execute_campaign CStatus.active
        [{ status := SchedStatus.pending, executed := false,
           cadence := some Frequency.weekly }] false
      = ([{ status := SchedStatus.failed, executed := false,
            cadence := some Frequency.weekly }], ExecOutcome.raised) ∧
    CAMPAIGN_RETRY_ATTEMPTS = 3 ∧ CAMPAIGN_RETRY_DELAY = 60 := by
  refine ⟨by decide, rfl, rfl⟩

/-- Claim C10, counterexample: a rebalance run over active campaigns with
current budgets 0 and 400 in which the solver succeeds with the
constraint-satisfying vector [200, 200] does not abort: the change-magnitude
gate evaluates the division by the zero budget under numpy float semantics
(yielding an infinite change ratio, not a `ZeroDivisionError`), the gate
passes, and the run commits both new budgets, returning both rebalance
results. -/
theorem C10_counterexample :
    satisfiesConstraints [0, 400] [200, 200] ∧
    rebalance_budgets [0, 400] (OptimizeResult.mk true [200, 200])
      = ([200, 200], [(0, 200), (400, 200)]) := by
  constructor
  · norm_num [satisfiesConstraints, totalBudget, upperBound,
      MIN_CAMPAIGN_BUDGET, MAX_BUDGET_ALLOCATION_PERCENT]
  · norm_num [rebalance_budgets, commitBudget, gatePasses,
      REBALANCING_THRESHOLD, List.cons_ne_nil]

/-- Claim C10, amended: in a rebalance run in which the solver succeeds, an
active campaign whose current budget is exactly 0 and whose proposed budget is
nonzero always passes the change-magnitude gate (the numpy division by zero
yields an infinite ratio, which exceeds any finite threshold) and is updated
to its proposed budget; the run completes normally. -/
theorem C10_amended_zero_budget_always_updated (budgets xs : List ℚ) (i : ℕ)
    (hi : i < budgets.length) (hlen : xs.length = budgets.length)
    (hzero : budgets.getD i 0 = 0) (hnz : xs.getD i 0 ≠ 0) :
    (rebalance_budgets budgets (OptimizeResult.mk true xs)).1.getD i 0
      = xs.getD i 0 := by
  have hne : budgets ≠ [] := List.ne_nil_of_length_pos (by omega)
  have hx : i < xs.length := by omega
  have hgate : gatePasses REBALANCING_THRESHOLD (budgets.getD i 0) (xs.getD i 0)
      = true := by
    unfold gatePasses
    rw [if_pos hzero]
    exact decide_eq_true hnz
  simp only [rebalance_budgets]
  rw [if_neg hne, if_neg (by simp : ¬((OptimizeResult.mk true xs).success = false))]
  show (List.zipWith _ budgets xs).getD i 0 = xs.getD i 0
  rw [getD_zipWith _ budgets xs i hi hx]
  unfold commitBudget
  rw [hgate]
  simp

/-- Witness for the amended C10 at the concrete run of the counterexample
input. -/
theorem C10_amended_zero_budget_always_updated_witness :
    (rebalance_budgets [0, 400] (OptimizeResult.mk true [200, 200])).1.getD 0 0
      = (200 : ℚ) :=
  C10_amended_zero_budget_always_updated [0, 400] [200, 200] 0
    (by norm_num) (by norm_num) (by norm_num) (by norm_num)

lemma rebalance_getD (budgets xs : List ℚ) (i : ℕ)
    (hi : i < budgets.length) (hx : i < xs.length) :
    (rebalance_budgets budgets (OptimizeResult.mk true xs)).1.getD i 0
      = commitBudget REBALANCING_THRESHOLD (budgets.getD i 0) (xs.getD i 0) := by
  have hne : budgets ≠ [] := List.ne_nil_of_length_pos (by omega)
  simp only [rebalance_budgets]
  rw [if_neg hne, if_neg (by simp : ¬((OptimizeResult.mk true xs).success = false))]
  show (List.zipWith _ budgets xs).getD i 0 = _
  rw [getD_zipWith _ budgets xs i hi hx]

/-- Claim C1, counterexample: a run over current budgets [430, 570] in which
the solver succeeds with [500, 500] (which satisfies the equality and box
constraints exactly: total 1000, bounds [100, 500]).  The gate passes only
for the first campaign (relative change 70/430 > 0.15 but 70/570 ≤ 0.15), so
the persisted budgets are [500, 570]: their sum is 1070 ≠ 1000 and the second
persisted budget 570 exceeds the box bound 500, so the budgets persisted
after the run satisfy neither constraint. -/
theorem C1_counterexample :
    satisfiesConstraints [430, 570] [500, 500] ∧
    (rebalance_budgets [430, 570] (OptimizeResult.mk true [500, 500])).1
      = [500, 570] ∧
    (rebalance_budgets [430, 570] (OptimizeResult.mk true [500, 500])).1.sum
      = 1070 ∧
    totalBudget [430, 570] = 1000 ∧
    upperBound (totalBudget [430, 570]) = 500 ∧ (500 : ℚ) < 570 := by
  refine ⟨?_, ?_, ?_, ?_, ?_, by norm_num⟩
  · norm_num [satisfiesConstraints, totalBudget, upperBound,
      MIN_CAMPAIGN_BUDGET, MAX_BUDGET_ALLOCATION_PERCENT]
  · norm_num [rebalance_budgets, commitBudget, gatePasses,
      REBALANCING_THRESHOLD, List.cons_ne_nil]
  · norm_num [rebalance_budgets, commitBudget, gatePasses,
      REBALANCING_THRESHOLD, List.cons_ne_nil]
  · norm_num [totalBudget]
  · norm_num [totalBudget, upperBound, MAX_BUDGET_ALLOCATION_PERCENT]

/-- Claim C1, amended: when the solver succeeds with a constraint-satisfying
vector, each campaign budget persisted by the run is either the unchanged
previous budget or the proposed budget, and in the latter case it satisfies
the box constraint (the proposed vector itself satisfies both constraints by
the solver contract); the persisted vector as a whole need not satisfy the
equality or box constraints. -/
theorem C1_amended_persisted_budgets (budgets xs : List ℚ)
    (h : satisfiesConstraints budgets xs) (i : ℕ) (hi : i < budgets.length) :
    (rebalance_budgets budgets (OptimizeResult.mk true xs)).1.getD i 0
        = budgets.getD i 0 ∨
    ((rebalance_budgets budgets (OptimizeResult.mk true xs)).1.getD i 0
        = xs.getD i 0 ∧
      MIN_CAMPAIGN_BUDGET ≤ xs.getD i 0 ∧
      xs.getD i 0 ≤ upperBound (totalBudget budgets)) := by
  obtain ⟨hlen, hsum, hbox⟩ := h
  have hx : i < xs.length := by omega
  rw [rebalance_getD budgets xs i hi hx]
  unfold commitBudget
  cases hgv : gatePasses REBALANCING_THRESHOLD (budgets.getD i 0) (xs.getD i 0) with
  | false =>
    left
    rfl
  | true =>
    right
    exact ⟨rfl, (hbox _ (getD_mem_of_lt xs i hx)).1,
      (hbox _ (getD_mem_of_lt xs i hx)).2⟩

/-- Witness for the amended C1 at the counterexample input (campaign index
0, whose gate passes). -/
theorem C1_amended_persisted_budgets_witness :
    (rebalance_budgets [430, 570] (OptimizeResult.mk true [500, 500])).1.getD 0 0
        = List.getD [430, 570] 0 0 ∨
    ((rebalance_budgets [430, 570] (OptimizeResult.mk true [500, 500])).1.getD 0 0
        = List.getD [500, 500] 0 0 ∧
      MIN_CAMPAIGN_BUDGET ≤ List.getD [(500 : ℚ), 500] 0 0 ∧
      List.getD [(500 : ℚ), 500] 0 0 ≤ upperBound (totalBudget [430, 570])) :=
  C1_amended_persisted_budgets [430, 570] [500, 500]
    (by norm_num [satisfiesConstraints, totalBudget, upperBound,
      MIN_CAMPAIGN_BUDGET, MAX_BUDGET_ALLOCATION_PERCENT]) 0 (by norm_num)

/-- Claim C2: in a successful rebalance run, a campaign with a positive
current budget has its persisted budget changed if and only if the relative
change `|new - old| / old` exceeds `REBALANCING_THRESHOLD`; at or below the
threshold the budget field is left unchanged by the run. -/
theorem C2_threshold_gate (budgets xs : List ℚ) (i : ℕ)
    (hi : i < budgets.length) (hlen : xs.length = budgets.length)
    (hpos : 0 < budgets.getD i 0) :
    ((rebalance_budgets budgets (OptimizeResult.mk true xs)).1.getD i 0
        ≠ budgets.getD i 0 ↔
      REBALANCING_THRESHOLD
        < |xs.getD i 0 - budgets.getD i 0| / budgets.getD i 0) ∧
    (|xs.getD i 0 - budgets.getD i 0| / budgets.getD i 0
        ≤ REBALANCING_THRESHOLD →
      (rebalance_budgets budgets (OptimizeResult.mk true xs)).1.getD i 0
        = budgets.getD i 0) := by
  have hx : i < xs.length := by omega
  rw [rebalance_getD budgets xs i hi hx]
  have hne0 : budgets.getD i 0 ≠ 0 := ne_of_gt hpos
  unfold commitBudget gatePasses
  rw [if_neg hne0]
  by_cases hc : REBALANCING_THRESHOLD
      < |xs.getD i 0 - budgets.getD i 0| / budgets.getD i 0
  · rw [if_pos (by exact decide_eq_true hc)]
    have hθ : (0 : ℚ) < REBALANCING_THRESHOLD := by norm_num [REBALANCING_THRESHOLD]
    have h1 : REBALANCING_THRESHOLD * budgets.getD i 0
        < |xs.getD i 0 - budgets.getD i 0| := (lt_div_iff₀ hpos).mp hc
    have h3 : 0 < |xs.getD i 0 - budgets.getD i 0| :=
      lt_of_le_of_lt (mul_nonneg hθ.le hpos.le) h1
    refine ⟨⟨fun _ => hc, fun _ heq => ?_⟩, fun hle => absurd hc (not_lt.mpr hle)⟩
    rw [heq] at h3
    simp at h3
  · rw [if_neg (fun h => hc (of_decide_eq_true h))]
    exact ⟨⟨fun h => absurd rfl h, fun h => absurd h hc⟩, fun _ => rfl⟩

/-- Witness for C2 at the concrete run over budgets [430, 570] with proposed
vector [500, 500], campaign index 1 (relative change 70/570, below the
threshold, so the budget is unchanged). -/
theorem C2_threshold_gate_witness :
    ((rebalance_budgets [430, 570] (OptimizeResult.mk true [500, 500])).1.getD 1 0
        ≠ List.getD [430, 570] 1 0 ↔
      REBALANCING_THRESHOLD
        < |List.getD [(500 : ℚ), 500] 1 0 - List.getD [430, 570] 1 0|
            / List.getD [(430 : ℚ), 570] 1 0) ∧
    (|List.getD [(500 : ℚ), 500] 1 0 - List.getD [430, 570] 1 0|
        / List.getD [(430 : ℚ), 570] 1 0 ≤ REBALANCING_THRESHOLD →
      (rebalance_budgets [430, 570] (OptimizeResult.mk true [500, 500])).1.getD 1 0
        = List.getD [430, 570] 1 0) :=
  C2_threshold_gate [430, 570] [500, 500] 1 (by norm_num) (by norm_num)
    (by norm_num)

/-- Claim C4: with exactly one active campaign, the budget the campaign
holds after the rebalance run equals the full total budget (which the code
computes as the sum of the current budgets, here the campaign budget
itself).  For a consistent solver outcome this is forced: a reported success
would have to satisfy both the equality constraint (the single proposed value
equals the total) and the box constraint (at most half the total and at least
the minimum), which no value does, so the solver cannot succeed and the run
leaves the single budget in place, already equal to the total. -/
theorem C4_single_campaign_full_budget (b : ℚ) (r : OptimizeResult)
    (hc : r.success = true → satisfiesConstraints [b] r.x) :
    (rebalance_budgets [b] r).1 = [b] ∧ totalBudget [b] = b := by
  constructor
  · cases hs : r.success with
    | false => simp [rebalance_budgets, hs]
    | true =>
      exfalso
      obtain ⟨hlen, hsum, hbox⟩ := hc hs
      obtain ⟨x, hx⟩ := List.length_eq_one.mp (by simpa using hlen)
      have hmem : x ∈ r.x := by rw [hx]; exact List.mem_singleton_self x
      obtain ⟨hlo, hhi⟩ := hbox x hmem
      have hxb : x = b := by simpa [hx, totalBudget] using hsum
      have ht : totalBudget [b] = b := by simp [totalBudget]
      have hub : upperBound (totalBudget [b]) = b / 2 := by
        rw [ht]; unfold upperBound MAX_BUDGET_ALLOCATION_PERCENT; ring
      have hlo2 : (100 : ℚ) ≤ b := by
        rw [hxb] at hlo
        simpa [MIN_CAMPAIGN_BUDGET] using hlo
      have hhi2 : b ≤ b / 2 := by
        rw [hxb, hub] at hhi
        exact hhi
      linarith
  · simp [totalBudget]

/-- Witness for C4 at a concrete single-campaign run (budget 300, solver did
not converge). -/
theorem C4_single_campaign_full_budget_witness :
    (rebalance_budgets [(300 : ℚ)] (OptimizeResult.mk false [])).1 = [300] ∧
    totalBudget [(300 : ℚ)] = 300 :=
  C4_single_campaign_full_budget 300 (OptimizeResult.mk false [])
    (fun h => nomatch h)

/-- Claim C5: stepping a monthly schedule advances to the same day-of-month
in the next calendar month (the linearised month index advances by exactly
one, rolling the year past December), keeping the day when it fits and
clamping to the last valid day when the target month is shorter, and always
produces a valid calendar date (so never a rolled-over date such as Mar 3 and
never an error). -/
theorem C5_monthly_step_calendar (d : Date) (h : d.valid) :
    ((monthlyStep d).year * 12 + (monthlyStep d).month
        = d.year * 12 + d.month + 1) ∧
    (d.day ≤ daysInMonth (monthlyStep d).year (monthlyStep d).month →
      (monthlyStep d).day = d.day) ∧
    (daysInMonth (monthlyStep d).year (monthlyStep d).month < d.day →
      (monthlyStep d).day
        = daysInMonth (monthlyStep d).year (monthlyStep d).month) ∧
    (monthlyStep d).valid := by
  obtain ⟨h1, h2, h3, h4⟩ := h
  have hyear : (monthlyStep d).year
      = if d.month = 12 then d.year + 1 else d.year := rfl
  have hmon : (monthlyStep d).month
      = if d.month = 12 then 1 else d.month + 1 := rfl
  have hday : (monthlyStep d).day
      = min d.day (daysInMonth (monthlyStep d).year (monthlyStep d).month) := rfl
  have h28 := daysInMonth_ge_28 (monthlyStep d).year (monthlyStep d).month
  refine ⟨?_, fun hle => ?_, fun hlt => ?_, ?_, ?_, ?_, ?_⟩
  · rw [hyear, hmon]
    by_cases hm : d.month = 12 <;> simp [hm] <;> omega
  · rw [hday]
    exact min_eq_left hle
  · rw [hday]
    exact min_eq_right (le_of_lt hlt)
  · rw [hmon]
    by_cases hm : d.month = 12
    · simp [hm]
    · simp [hm]
  · rw [hmon]
    by_cases hm : d.month = 12
    · simp [hm]
    · simp [hm]
      omega
  · rw [hday]
    omega
  · rw [hday]
    exact min_le_right _ _

/-- Witness for C5 at Jan 31: the step keeps the month arithmetic, clamps
(Feb 2025 has 28 days, fewer than 31), and yields a valid date. -/
theorem C5_monthly_step_calendar_witness :
    Date.valid (Date.mk 2025 1 31) ∧
    (((monthlyStep (Date.mk 2025 1 31)).year * 12
          + (monthlyStep (Date.mk 2025 1 31)).month
        = (Date.mk 2025 1 31).year * 12 + (Date.mk 2025 1 31).month + 1) ∧
      ((Date.mk 2025 1 31).day
          ≤ daysInMonth (monthlyStep (Date.mk 2025 1 31)).year
              (monthlyStep (Date.mk 2025 1 31)).month →
        (monthlyStep (Date.mk 2025 1 31)).day = (Date.mk 2025 1 31).day) ∧
      (daysInMonth (monthlyStep (Date.mk 2025 1 31)).year
            (monthlyStep (Date.mk 2025 1 31)).month
          < (Date.mk 2025 1 31).day →
        (monthlyStep (Date.mk 2025 1 31)).day
          = daysInMonth (monthlyStep (Date.mk 2025 1 31)).year
              (monthlyStep (Date.mk 2025 1 31)).month) ∧
      (monthlyStep (Date.mk 2025 1 31)).valid) :=
  ⟨by decide, C5_monthly_step_calendar (Date.mk 2025 1 31) (by decide)⟩

/-- Claim C7: updating the frequency of an active campaign to a new value
cancels all pending occurrences and regenerates the schedule from the new
parameters, so afterwards no pending occurrence referencing the old cadence
remains (the filter selecting pending occurrences whose cadence differs from
the new frequency is empty). -/
theorem C7_update_regenerates_schedules (c : Camp) (f : Frequency)
    (hf : some f ≠ c.frequency) (hst : c.status = CStatus.active) :
    ((update_campaign c (CampaignUpd.mk (some f) none none)).schedules.filter
      (fun s => s.status == SchedStatus.pending
        && !(s.cadence == some f))) = [] := by
  have hupd : (update_campaign c (CampaignUpd.mk (some f) none none)).schedules
      = create_campaign_schedules c.schedules (some f) 6 := by
    unfold update_campaign
    simp [hf, hst]
  rw [hupd, List.filter_eq_nil_iff]
  intro s hs
  unfold create_campaign_schedules at hs
  rcases List.mem_append.mp hs with hL | hR
  · obtain ⟨s0, hs0, rfl⟩ := List.mem_map.mp hL
    by_cases hp : s0.status = SchedStatus.pending <;> simp [hp]
  · rw [List.eq_of_mem_replicate hR]
    simp

/-- Witness for C7: an active weekly campaign with one pending weekly
occurrence, updated to daily frequency. -/
theorem C7_update_regenerates_schedules_witness :
    ((update_campaign
        (Camp.mk (some Frequency.weekly) none CStatus.active
          [{ status := SchedStatus.pending, executed := false,
             cadence := some Frequency.weekly }])
        (CampaignUpd.mk (some Frequency.daily) none none)).schedules.filter
      (fun s => s.status == SchedStatus.pending
        && !(s.cadence == some Frequency.daily))) = [] :=
  C7_update_regenerates_schedules _ Frequency.daily (by decide) rfl
